import Mathlib

/-!
Verification of the Mercury call-orchestration stack.

Shallow embedding of the per-call conversation state machines, the TTS
cache, the outbound audio queue and the turn-taking engine, translated
from:
  - `escotel-stack/exotel-service/voice_streaming_service.py` (namespace `VSS`)
  - `escotel-stack/exotel-service/nerve_system.py` (namespace `Nerve`)
  - `escotel-stack/voice-gateway/main.py` (namespace `VG`)

Bytes are modelled as `List Nat` (byte values); audio-time and wall-clock
instants as `Nat` ticks; VAD probabilities as `ℚ`.  External collaborators
(the TTS backend, the MD5 digest) are parameters of the definitions that
call them.
-/

namespace VSS

/-- `ConversationState` enum of `voice_streaming_service.py`. -/
inductive ConversationState where
  | greeting
  | listening
  | processing
  | speaking
  | prep_time
  | completed
deriving DecidableEq, Repr

/-- `CallStatus` enum of `voice_streaming_service.py`. -/
inductive CallStatus where
  | connected
  | active
  | accepted
  | rejected
  | completed
  | failed
deriving DecidableEq, Repr

/-- Mutable per-stream fields of `StreamState` that the conversation logic
touches (audio buffer as raw bytes, queues modelled separately). -/
structure StreamState where
  conversation_state : ConversationState := ConversationState.greeting
  call_status : CallStatus := CallStatus.connected
  input_buffer : List Nat := []
  transcribed_text : String := ""
  prep_time_minutes : Option Nat := none
deriving DecidableEq, Repr

/-- `CHUNK_SIZE = 320` bytes per 20 ms at 8 kHz. -/
def CHUNK_SIZE : Nat := 320

/-- `MIN_CHUNK_SIZE = 3200` bytes (100 ms). -/
def MIN_CHUNK_SIZE : Nat := 3200

/-- `prep_time_map = {"1": 15, "2": 30, "3": 45}` with `.get(digit, 30)`. -/
def prepTimeLookup (digit : String) : Nat :=
  if digit = "1" then 15
  else if digit = "2" then 30
  else if digit = "3" then 45
  else 30

/-- `ConversationManager.handle_dtmf`: returns the updated stream state and
the optional response text (the Hindi prompt strings are abstracted to
tags, their content does not affect control flow). -/
def handle_dtmf (state : StreamState) (digit : String) :
    StreamState × Option String :=
  if state.conversation_state = ConversationState.greeting then
    if digit = "1" then
      ({ state with conversation_state := ConversationState.prep_time,
                    call_status := CallStatus.accepted },
       some "prep_time_menu")
    else if digit = "0" then
      ({ state with conversation_state := ConversationState.completed,
                    call_status := CallStatus.rejected },
       some "rejection_ack")
    else (state, none)
  else if state.conversation_state = ConversationState.prep_time then
    let prep_time := prepTimeLookup digit
    ({ state with prep_time_minutes := some prep_time,
                  conversation_state := ConversationState.completed,
                  call_status := CallStatus.completed },
     some "prep_time_goodbye")
  else (state, none)

/-- `ConversationManager.process_audio`: below `MIN_CHUNK_SIZE` nothing
happens; otherwise the buffer is drained and transcribed (`asr` is the
external transcription collaborator).  It always returns `none` as the
response text (the code relies on DTMF for responses). -/
def process_audio (state : StreamState) (asr : List Nat → Option String) :
    StreamState × Option String :=
  if state.input_buffer.length < MIN_CHUNK_SIZE then (state, none)
  else
    let audio := state.input_buffer
    let drained := { state with input_buffer := [] }
    match asr audio with
    | some text => ({ drained with transcribed_text := text }, none)
    | none => (drained, none)

/-- The `media` branch of `VoicebotHandler.handle_connection`: append the
decoded payload to the input buffer and, only in the `listening` state,
run `process_audio`. -/
def handle_media (state : StreamState) (payload : List Nat)
    (asr : List Nat → Option String) : StreamState :=
  let buffered := { state with input_buffer := state.input_buffer ++ payload }
  if buffered.conversation_state = ConversationState.listening then
    (process_audio buffered asr).1
  else buffered

end VSS

namespace Nerve

/-- `CallType` enum of `nerve_system.py`. -/
inductive CallType where
  | vendor_order_confirmation
  | vendor_prep_time
  | rider_assignment
  | rider_pickup_ready
deriving DecidableEq, Repr

/-- `CallStatus` enum of `nerve_system.py`. -/
inductive CallStatus where
  | initiated
  | ringing
  | answered
  | accepted
  | rejected
  | prep_time_set
  | no_response
  | failed
  | busy
  | completed
  | retry_requested
deriving DecidableEq, Repr

/-- `RejectionReason` enum of `nerve_system.py`. -/
inductive RejectionReason where
  | item_unavailable
  | too_busy
  | shop_closed
  | other
deriving DecidableEq, Repr

/-- The fields of the `CallState` dataclass that the callback handlers
read or write (`current_state` is a plain string in the source:
`greeting`, `prep_time`, `rejection_reason`, `goodbye`, `completed`,
`ivr_menu`). -/
structure CallState where
  call_sid : String
  call_type : CallType := CallType.vendor_order_confirmation
  status : CallStatus := CallStatus.initiated
  current_state : String := "greeting"
  prep_time_minutes : Option Nat := none
  rejection_reason : Option RejectionReason := none
deriving DecidableEq, Repr

/-- `dtmf.replace('"', '').strip()`, modelled on the character list of the
string (strip removes leading/trailing whitespace). -/
def cleanDigits (d : String) : String :=
  let dropped := (d.toList.filter (fun c => c ≠ '"'))
  ⟨((dropped.dropWhile Char.isWhitespace).reverse.dropWhile
      Char.isWhitespace).reverse⟩

/-- `{"1": 15, "2": 30, "3": 45}.get(digit, 30)` as used by the
programmable-gather handler (and the streaming service). -/
def prepTimeMapGet (digit : String) : Nat :=
  if digit = "1" then 15
  else if digit = "2" then 30
  else if digit = "3" then 45
  else 30

/-- `clean_digits.replace("#", "")`: removes every `#` (single-character
pattern, empty replacement). -/
def stripHash (s : String) : String :=
  ⟨s.toList.filter (fun c => c ≠ '#')⟩

/-- Accumulator loop of decimal parsing: fails on any non-digit. -/
def parseDigitsAux : List Char → Nat → Option Nat
  | [], acc => some acc
  | c :: cs, acc =>
    if c.isDigit then parseDigitsAux cs (acc * 10 + (c.toNat - '0'.toNat))
    else none

/-- Python `int(s)` on the unsigned digit strings DTMF delivers: the
decimal value, or `none` (an exception in the source) for an empty or
non-numeric string. -/
def parseInt? (s : String) : Option Nat :=
  match s.toList with
  | [] => none
  | c :: cs => parseDigitsAux (c :: cs) 0

/-- The prep-time parsing of the passthru callback: menu digits 1/2/3 map
to 15/30/45; otherwise `int(clean_digits.replace("#", ""))` clamped by
`max(5, min(90, ·))`, keeping the default 30 when parsing raises. -/
def parsePrepDigit (clean_digits : String) : Nat :=
  if clean_digits = "1" then 15
  else if clean_digits = "2" then 30
  else if clean_digits = "3" then 45
  else
    match parseInt? (stripHash clean_digits) with
    | some v => max 5 (min 90 v)
    | none => 30

/-- `reason_map.get(clean_digits, RejectionReason.OTHER)`. -/
def rejectionMapGet (clean_digits : String) : RejectionReason :=
  if clean_digits = "1" then RejectionReason.item_unavailable
  else if clean_digits = "2" then RejectionReason.too_busy
  else if clean_digits = "3" then RejectionReason.shop_closed
  else if clean_digits = "4" then RejectionReason.other
  else RejectionReason.other

/-- The DTMF branch of `exotel_passthru_callback` (lines 1459-1590) for an
existing call state and already-cleaned digits.  Returns the updated call
state and how many times `report_call_result` is awaited during the step.
A fall-through (unmatched state or unmatched digit) replays the greeting
and reports nothing. -/
def passthruDtmf (cs : CallState) (clean_digits : String) : CallState × Nat :=
  if cs.current_state = "ivr_menu" then
    if clean_digits = "1" then
      ({ cs with current_state := "greeting",
                 status := CallStatus.answered }, 0)
    else
      ({ cs with current_state := "greeting" }, 0)
  else if cs.current_state = "greeting" then
    if clean_digits = "1" then
      ({ cs with status := CallStatus.accepted,
                 current_state := "prep_time" }, 0)
    else if clean_digits = "0" then
      ({ cs with status := CallStatus.rejected,
                 current_state := "completed" }, 1)
    else (cs, 0)
  else if cs.current_state = "prep_time" then
    let prep_time := parsePrepDigit clean_digits
    ({ cs with prep_time_minutes := some prep_time,
               status := CallStatus.prep_time_set,
               current_state := "goodbye" }, 1)
  else if cs.current_state = "rejection_reason" then
    ({ cs with rejection_reason := some (rejectionMapGet clean_digits),
               current_state := "goodbye" }, 1)
  else (cs, 0)

/-- `exotel_passthru_callback` for an existing call state: `if dtmf:` is
false for an absent or empty digits parameter (no state change, no
report); otherwise the digits are cleaned and dispatched. -/
def passthruCallbackStep (cs : CallState) (dtmf : Option String) :
    CallState × Nat :=
  match dtmf with
  | none => (cs, 0)
  | some d => if d = "" then (cs, 0) else passthruDtmf cs (cleanDigits d)

/-- The DTMF branch of `programmable_gather_handler` (lines 1246-1313):
accept/reject in `greeting`, prep-time menu with `.get(digit, 30)` default
in `prep_time`.  Returns the updated state and the report count. -/
def gatherDtmf (cs : CallState) (dtmf : String) : CallState × Nat :=
  if cs.current_state = "greeting" then
    if dtmf = "1" then
      ({ cs with status := CallStatus.accepted,
                 current_state := "prep_time" }, 0)
    else if dtmf = "0" then
      ({ cs with status := CallStatus.rejected,
                 current_state := "completed" }, 1)
    else (cs, 0)
  else if cs.current_state = "prep_time" then
    let prep_time := prepTimeMapGet dtmf
    ({ cs with prep_time_minutes := some prep_time,
               status := CallStatus.prep_time_set,
               current_state := "completed" }, 1)
  else (cs, 0)

/-- `status_map.get(status.lower() if status else "", CallStatus.COMPLETED)`
of `exotel_status_callback`. -/
def statusMapGet (status : String) : CallStatus :=
  if status = "completed" then CallStatus.completed
  else if status = "no-answer" then CallStatus.no_response
  else if status = "busy" then CallStatus.busy
  else if status = "failed" then CallStatus.failed
  else if status = "canceled" then CallStatus.failed
  else CallStatus.completed

/-- Outcome of one delivery of the status callback: the registry after the
cleanup `del active_calls[call_sid]`, the status it reported, and the
number of `jupiter_reporter.report_result` calls it made. -/
structure StatusResult where
  registry : List (String × CallState)
  reported_status : CallStatus
  reports : Nat
deriving DecidableEq, Repr

/-- `exotel_status_callback` (lines 1700-1749): maps the vendor status,
looks the call up only to fill report fields, always awaits
`jupiter_reporter.report_result` exactly once, then deletes the call state
if present.  The registry (`active_calls`) is an association list. -/
def statusCallback (registry : List (String × CallState))
    (call_sid : String) (status : Option String) : StatusResult :=
  let mapped := statusMapGet (match status with
    | some s => s.toLower
    | none => "")
  { registry := registry.filter (fun p => p.1 ≠ call_sid)
    reported_status := mapped
    reports := 1 }

end Nerve

namespace Nerve

/-- The in-process TTS cache dictionary (`TTSCache.cache`), keyed by the
hex digest string, values raw audio bytes. -/
abbrev Cache := String → Option (List Nat)

/-- The empty cache (`self.cache = {}`). -/
def emptyCache : Cache := fun _ => none

/-- `self.cache[key] = audio_data` (dict assignment overwrites). -/
def cacheUpdate (c : Cache) (key : String) (v : List Nat) : Cache :=
  fun k => if k = key then some v else c k

/-- `TTSCache.cache_key`: the digest of `f"{text}:{language}:{voice}"`.
The MD5 digest itself is an external primitive (`hashlib.md5`), passed in
as `md5`; everything this code determines is the colon-joined pre-image. -/
def cache_key (md5 : String → String) (text language voice : String) :
    String :=
  md5 (text ++ ":" ++ language ++ ":" ++ voice)

/-- `TTSCache.synthesize`: cache hit returns the stored bytes without
calling the TTS backend; a miss calls `tts` once and stores the result
under the key.  Returns (new cache, returned audio, upstream calls made on
this invocation). -/
def synthesize (md5 : String → String)
    (tts : String → String → String → List Nat) (c : Cache)
    (text language voice : String) : Cache × List Nat × Nat :=
  let key := cache_key md5 text language voice
  match c key with
  | some audio => (c, audio, 0)
  | none =>
      let audio := tts text language voice
      (cacheUpdate c key audio, audio, 1)

/-- Position of one `synthesize` coroutine between its suspension points:
`check` is the `if key in self.cache` test, `callTTS` is the issuing of the
`client.post` request (awaited), `store` is the cache assignment after the
response arrives; `doneHit`/`doneStored` are the two returns. -/
inductive SynthPC where
  | check
  | callTTS
  | store
  | doneStored
  | doneHit
deriving DecidableEq, Repr

/-- Two `synthesize` coroutines for the same cache key, interleaved by the
event loop: the one shared cache slot for that key, each task's position,
and the number of upstream TTS requests issued so far. -/
structure SynthSystem where
  cache : Option (List Nat)
  pcA : SynthPC
  pcB : SynthPC
  upstream_calls : Nat
deriving DecidableEq, Repr

/-- One scheduler step of a single `synthesize` task (with `result` the
bytes its own upstream request would return). -/
def taskStep (pc : SynthPC) (cache : Option (List Nat))
    (result : List Nat) (calls : Nat) :
    SynthPC × Option (List Nat) × Nat :=
  match pc with
  | SynthPC.check =>
      match cache with
      | some _ => (SynthPC.doneHit, cache, calls)
      | none => (SynthPC.callTTS, cache, calls)
  | SynthPC.callTTS => (SynthPC.store, cache, calls + 1)
  | SynthPC.store => (SynthPC.doneStored, some result, calls)
  | SynthPC.doneStored => (SynthPC.doneStored, cache, calls)
  | SynthPC.doneHit => (SynthPC.doneHit, cache, calls)

/-- One interleaving step: `true` advances task A, `false` task B. -/
def sysStep (resultA resultB : List Nat) (s : SynthSystem) (aMoves : Bool) :
    SynthSystem :=
  if aMoves then
    let r := taskStep s.pcA s.cache resultA s.upstream_calls
    { s with pcA := r.1, cache := r.2.1, upstream_calls := r.2.2 }
  else
    let r := taskStep s.pcB s.cache resultB s.upstream_calls
    { s with pcB := r.1, cache := r.2.1, upstream_calls := r.2.2 }

/-- Run a cooperative schedule over the two tasks. -/
def runSchedule (resultA resultB : List Nat) (sched : List Bool)
    (s : SynthSystem) : SynthSystem :=
  sched.foldl (sysStep resultA resultB) s

/-- Both tasks start at their cache check, cache empty (first-time
requests), no upstream calls issued. -/
def initSynth : SynthSystem :=
  { cache := none, pcA := SynthPC.check, pcB := SynthPC.check,
    upstream_calls := 0 }

/-- A task is finished (returned from `synthesize`). -/
def taskDone (pc : SynthPC) : Bool :=
  pc = SynthPC.doneStored || pc = SynthPC.doneHit

/-- How many upstream requests a task at this position has issued. -/
def callContrib : SynthPC → Nat
  | SynthPC.store => 1
  | SynthPC.doneStored => 1
  | _ => 0

/-- Execution invariant of the interleaved pair: the call counter equals
the per-task contributions, the cache is populated exactly when some task
has stored, and a task can only have hit if the cache is populated. -/
def SynthInv (s : SynthSystem) : Prop :=
  s.upstream_calls = callContrib s.pcA + callContrib s.pcB ∧
  (s.cache.isSome ↔
    (s.pcA = SynthPC.doneStored ∨ s.pcB = SynthPC.doneStored)) ∧
  ((s.pcA = SynthPC.doneHit ∨ s.pcB = SynthPC.doneHit) → s.cache.isSome)

end Nerve

namespace VSS

/-- Requested output length of `scipy.signal.resample`:
`int(len(audio_array) * SAMPLE_RATE / framerate)` samples. -/
def resampleCount (n framerate : Nat) : Nat := n * 8000 / framerate

/-- Byte length of the PCM produced by `TTSClient._wav_to_pcm` from a
16-bit WAV with `nframes` frames, `channels` channels and sample rate
`framerate`.  The resampler and the stereo-to-mono mean are external DSP
primitives; the sample counts (hence byte lengths) are fixed by this
code: resample to `int(n * 8000 / framerate)` samples, then halve the
count when averaging stereo pairs. -/
def wavToPcmLen (nframes channels framerate : Nat) : Nat :=
  let nbytes := nframes * channels * 2
  if framerate ≠ 8000 ∨ channels ≠ 1 then
    let n := nbytes / 2
    let n := if framerate ≠ 8000 then resampleCount n framerate else n
    let n := if channels = 2 then n / 2 else n
    n * 2
  else nbytes

/-- The loop body of `VoicebotHandler._split_audio_chunks`: slices of
`chunk_size = 6400` bytes (200 ms).  The fuel argument mirrors the bounded
`for i in range(0, len(pcm_data), chunk_size)` loop and is instantiated
with the list length. -/
def splitChunksGo (fuel : Nat) (l : List Nat) : List (List Nat) :=
  match fuel, l with
  | _, [] => []
  | 0, _ :: _ => []
  | fuel + 1, x :: xs => (x :: xs).take 6400 :: splitChunksGo fuel ((x :: xs).drop 6400)

/-- `VoicebotHandler._split_audio_chunks` on the PCM byte list. -/
def splitAudioChunks (pcm : List Nat) : List (List Nat) :=
  splitChunksGo pcm.length pcm

/-- Items of the per-stream `output_queue`: the dict items
`{"type": "clear"}` and `{"type": "mark", "name": ...}` and raw audio
byte chunks. -/
inductive QueueItem where
  | clear
  | mark (name : String)
  | audio (payload : List Nat)
deriving DecidableEq, Repr

/-- Frames `_audio_sender` writes to the websocket, one per queue item. -/
inductive Frame where
  | clearF
  | markF (name : String)
  | mediaF (payload : List Nat)
deriving DecidableEq, Repr

/-- The drain loop of `_send_audio_response`
(`while not empty: get_nowait`): empties the queue. -/
def drainQueue (_q : List QueueItem) : List QueueItem := []

/-- The 200 ms silence substitute enqueued when TTS fails:
`int(8000 * 0.2)` zero samples of 2 bytes. -/
def silenceBuffer : List Nat := List.replicate (1600 * 2) 0

/-- `VoicebotHandler._send_audio_response` acting on the output queue:
drain whatever is queued, enqueue a `clear` item, then the media chunks of
the new response (`pcm = none` models TTS failure, replaced by the silence
buffer), then a `mark` item. -/
def sendAudioResponse (q : List QueueItem) (pcm : Option (List Nat))
    (mark_name : String) : List QueueItem :=
  drainQueue q ++ [QueueItem.clear] ++
    (match pcm with
     | some bytes => (splitAudioChunks bytes).map QueueItem.audio
     | none => [QueueItem.audio silenceBuffer]) ++
    [QueueItem.mark mark_name]

/-- The frame corresponding to one queue item in `_audio_sender`'s loop
body. -/
def itemToFrame : QueueItem → Frame
  | QueueItem.clear => Frame.clearF
  | QueueItem.mark n => Frame.markF n
  | QueueItem.audio b => Frame.mediaF b

/-- `VoicebotHandler._audio_sender`: repeatedly takes the next queue item
(FIFO) and sends the corresponding frame on the websocket; the emitted
frame sequence for a queue content. -/
def audioSender : List QueueItem → List Frame
  | [] => []
  | item :: rest => itemToFrame item :: audioSender rest

end VSS

namespace VG

/-- Per-session fields of `TurnTakingEngine` for one session id
(`silence_start` holds the wall-clock instant silence began, here in
frame-duration ticks). -/
structure TTState where
  silence_start : Option Nat := none
  is_user_speaking : Bool := false
  is_ai_speaking : Bool := false
deriving DecidableEq, Repr

/-- The return value of `TurnTakingEngine.process_audio_chunk`
(`"continued"` is the no-event `"continue"` return). -/
inductive TurnEvent where
  | interrupted
  | speech_start
  | speech_end
  | continued
deriving DecidableEq, Repr

/-- `SileroVAD.is_speech`: `detect_speech(chunk) >= config.vad_threshold`,
on the per-frame probability the VAD collaborator returns. -/
def vadIsSpeech (prob threshold : ℚ) : Bool := threshold ≤ prob

/-- `TurnTakingEngine.process_audio_chunk` for one session: `prob` is the
VAD probability of this chunk, `now` the wall-clock instant the chunk is
processed (in frame ticks), `min_silence` the configured
`vad_min_silence_duration` in the same unit. -/
def process_audio_chunk (st : TTState) (prob threshold : ℚ)
    (min_silence : Nat) (now : Nat) : TTState × TurnEvent :=
  let is_speech := vadIsSpeech prob threshold
  let was_speaking := st.is_user_speaking
  let st1 := { st with is_user_speaking := is_speech }
  if is_speech && st1.is_ai_speaking then
    ({ st1 with is_ai_speaking := false }, TurnEvent.interrupted)
  else if is_speech && !was_speaking then
    ({ st1 with silence_start := none }, TurnEvent.speech_start)
  else
    let st2 :=
      if !is_speech && was_speaking then { st1 with silence_start := some now }
      else st1
    match st2.silence_start with
    | some t0 =>
        if min_silence ≤ now - t0 then
          ({ st2 with silence_start := none }, TurnEvent.speech_end)
        else (st2, TurnEvent.continued)
    | none => (st2, TurnEvent.continued)

/-- Feed a sequence of (probability, processing instant) chunks through
the engine and collect the returned events in order. -/
def runChunks (st : TTState) (threshold : ℚ) (min_silence : Nat) :
    List (ℚ × Nat) → List TurnEvent
  | [] => []
  | (p, t) :: rest =>
      let r := process_audio_chunk st p threshold min_silence t
      r.2 :: runChunks r.1 threshold min_silence rest

end VG

/-- Helper: the passthru DTMF dispatch leaves a session whose
`current_state` is none of the handled states (`ivr_menu`, `greeting`,
`prep_time`, `rejection_reason`) untouched and reports nothing. -/
theorem passthruDtmf_unhandled_state (cs : Nerve.CallState) (d : String)
    (h1 : cs.current_state ≠ "ivr_menu") (h2 : cs.current_state ≠ "greeting")
    (h3 : cs.current_state ≠ "prep_time")
    (h4 : cs.current_state ≠ "rejection_reason") :
    Nerve.passthruDtmf cs d = (cs, 0) := by
  unfold Nerve.passthruDtmf
  simp [h1, h2, h3, h4]

/-- Helper: the full passthru callback step on a completed-state session:
any DTMF payload (absent, empty, or any digits) leaves the call state
unchanged and makes no result report. -/
theorem passthruCallbackStep_completed (cs : Nerve.CallState)
    (dtmf : Option String) (h : cs.current_state = "completed") :
    Nerve.passthruCallbackStep cs dtmf = (cs, 0) := by
  unfold Nerve.passthruCallbackStep
  cases dtmf with
  | none => rfl
  | some d =>
      simp only []
      by_cases he : d = ""
      · simp [he]
      · simp [he]
        exact passthruDtmf_unhandled_state cs (Nerve.cleanDigits d)
          (by rw [h]; decide) (by rw [h]; decide) (by rw [h]; decide)
          (by rw [h]; decide)

/-- C1: once a session's conversation state is the terminal `completed`
state, any further DTMF digit or speech (media) event leaves the
conversation state and the call status unchanged, both in the streaming
service (`ConversationManager.handle_dtmf` and the `media` branch of the
websocket loop) and in the webhook passthru handler
(`exotel_passthru_callback`): no event moves the session back to a
non-terminal state. -/
theorem claim_C1_terminal_completed_frozen (s : VSS.StreamState)
    (digit : String) (payload : List Nat) (asr : List Nat → Option String)
    (cs : Nerve.CallState) (dtmf : Option String)
    (h1 : s.conversation_state = VSS.ConversationState.completed)
    (h2 : cs.current_state = "completed") :
    VSS.handle_dtmf s digit = (s, none) ∧
    (VSS.handle_media s payload asr).conversation_state =
      VSS.ConversationState.completed ∧
    (VSS.handle_media s payload asr).call_status = s.call_status ∧
    Nerve.passthruCallbackStep cs dtmf = (cs, 0) := by
  refine ⟨?_, ?_, ?_, passthruCallbackStep_completed cs dtmf h2⟩
  · unfold VSS.handle_dtmf
    simp [h1]
  · unfold VSS.handle_media
    simp [h1]
  · unfold VSS.handle_media
    simp [h1]

/-- Witness for C1 at a concrete completed session. -/
theorem claim_C1_witness :
    VSS.handle_dtmf
        { conversation_state := VSS.ConversationState.completed } "1" =
      ({ conversation_state := VSS.ConversationState.completed }, none) ∧
    (VSS.handle_media
        { conversation_state := VSS.ConversationState.completed } [7]
        (fun _ => none)).conversation_state =
      VSS.ConversationState.completed ∧
    (VSS.handle_media
        { conversation_state := VSS.ConversationState.completed } [7]
        (fun _ => none)).call_status =
      VSS.StreamState.call_status
        { conversation_state := VSS.ConversationState.completed } ∧
    Nerve.passthruCallbackStep
        { call_sid := "c1", current_state := "completed" } (some "0") =
      ({ call_sid := "c1", current_state := "completed" }, 0) :=
  claim_C1_terminal_completed_frozen
    { conversation_state := VSS.ConversationState.completed } "1" [7]
    (fun _ => none) { call_sid := "c1", current_state := "completed" }
    (some "0") rfl rfl

/-- C5: DTMF digit `"0"` received in state `greeting` of an
order-confirmation call makes the conversation state the terminal
`completed`, the call status `rejected`, and emits exactly one result
report (the passthru handler awaits `report_call_result` once; the
streaming service's handler performs the same state transition). -/
theorem claim_C5_greeting_reject (s : VSS.StreamState)
    (cs : Nerve.CallState)
    (h1 : s.conversation_state = VSS.ConversationState.greeting)
    (h2 : cs.current_state = "greeting")
    (h3 : cs.call_type = Nerve.CallType.vendor_order_confirmation) :
    (VSS.handle_dtmf s "0").1.conversation_state =
      VSS.ConversationState.completed ∧
    (VSS.handle_dtmf s "0").1.call_status = VSS.CallStatus.rejected ∧
    Nerve.passthruCallbackStep cs (some "0") =
      ({ cs with status := Nerve.CallStatus.rejected,
                 current_state := "completed" }, 1) := by
  have hclean : Nerve.cleanDigits "0" = "0" := by decide
  refine ⟨?_, ?_, ?_⟩
  · unfold VSS.handle_dtmf
    simp [h1]
  · unfold VSS.handle_dtmf
    simp [h1]
  · unfold Nerve.passthruCallbackStep
    simp only [hclean]
    have : ("0" : String) ≠ "" := by decide
    simp only [this, if_neg, ite_false]
    unfold Nerve.passthruDtmf
    rw [h2]
    simp

/-- Witness for C5 at a concrete greeting-state session. -/
theorem claim_C5_witness :
    (VSS.handle_dtmf
        { conversation_state := VSS.ConversationState.greeting }
        "0").1.conversation_state = VSS.ConversationState.completed ∧
    (VSS.handle_dtmf
        { conversation_state := VSS.ConversationState.greeting }
        "0").1.call_status = VSS.CallStatus.rejected ∧
    Nerve.passthruCallbackStep
        { call_sid := "c1", current_state := "greeting" } (some "0") =
      ({ call_sid := "c1", status := Nerve.CallStatus.rejected,
         current_state := "completed" }, 1) :=
  claim_C5_greeting_reject
    { conversation_state := VSS.ConversationState.greeting }
    { call_sid := "c1", current_state := "greeting" } rfl rfl rfl

/-- Helper: the audio sender emits exactly one frame per queue item, in
queue (enqueue) order. -/
theorem audioSender_eq_map (l : List VSS.QueueItem) :
    VSS.audioSender l = l.map VSS.itemToFrame := by
  induction l with
  | nil => rfl
  | cons item rest ih => simp [VSS.audioSender, ih]

/-- C3: when a new audio response supersedes an in-progress speak,
`_send_audio_response` drains the queue and enqueues the `clear` item
first, before every media chunk of the new response, and `_audio_sender`
emits queue items in enqueue order — so the emitted frame sequence starts
with the `clear` frame and every `media` frame comes strictly after it. -/
theorem claim_C3_clear_precedes_media (q : List VSS.QueueItem)
    (pcm : Option (List Nat)) (mark_name : String) :
    (∀ l, VSS.audioSender l = l.map VSS.itemToFrame) ∧
    (VSS.audioSender (VSS.sendAudioResponse q pcm mark_name)).head? =
      some VSS.Frame.clearF ∧
    (∀ i payload,
      (VSS.audioSender (VSS.sendAudioResponse q pcm mark_name)).get? i =
        some (VSS.Frame.mediaF payload) → 0 < i) := by
  refine ⟨audioSender_eq_map, ?_, ?_⟩
  · rfl
  · intro i payload hmem
    cases i with
    | zero =>
        rw [show (VSS.audioSender (VSS.sendAudioResponse q pcm mark_name)).get? 0 =
              some VSS.Frame.clearF from rfl] at hmem
        exact absurd hmem (by simp)
    | succ n => exact Nat.succ_pos n

/-- Witness for C3: a concrete superseding response whose first media
frame sits strictly after the clear frame at position 0. -/
theorem claim_C3_witness :
    (VSS.audioSender
        (VSS.sendAudioResponse [VSS.QueueItem.audio [9]] (some [1, 2, 3])
          "m")).head? = some VSS.Frame.clearF ∧
    (VSS.audioSender
        (VSS.sendAudioResponse [VSS.QueueItem.audio [9]] (some [1, 2, 3])
          "m")).get? 1 = some (VSS.Frame.mediaF [1, 2, 3]) ∧
    0 < 1 :=
  ⟨(claim_C3_clear_precedes_media [VSS.QueueItem.audio [9]] (some [1, 2, 3])
      "m").2.1,
   by decide,
   (claim_C3_clear_precedes_media [VSS.QueueItem.audio [9]] (some [1, 2, 3])
      "m").2.2 1 [1, 2, 3] (by decide)⟩

/-- Helper: the chunking loop on an empty byte list yields no chunks. -/
theorem splitChunksGo_nil (fuel : Nat) : VSS.splitChunksGo fuel [] = [] := by
  cases fuel <;> rfl

/-- Helper: one iteration of the chunking loop on a nonempty list. -/
theorem splitChunksGo_cons (fuel : Nat) (x : Nat) (xs : List Nat) :
    VSS.splitChunksGo (fuel + 1) (x :: xs) =
      (x :: xs).take 6400 :: VSS.splitChunksGo fuel ((x :: xs).drop 6400) :=
  rfl

/-- Helper: a nonempty PCM buffer of at most one loop slice (6400 bytes)
is forwarded as the single chunk it is, whatever its length. -/
theorem splitAudioChunks_short (l : List Nat) (h1 : l ≠ [])
    (h2 : l.length ≤ 6400) : VSS.splitAudioChunks l = [l] := by
  unfold VSS.splitAudioChunks
  cases l with
  | nil => exact absurd rfl h1
  | cons x xs =>
      rw [List.length_cons, splitChunksGo_cons, List.take_of_length_le h2,
        List.drop_eq_nil_of_le h2, splitChunksGo_nil]

/-- C4 fails on the code: `_wav_to_pcm` resamples a 22.05 kHz mono 16-bit
WAV of 1000 frames to `int(1000 * 8000 / 22050) = 362` samples = 724
bytes, and `_split_audio_chunks` forwards the remainder slice unchanged,
yielding a single 724-byte media chunk with `724 % 320 = 84 ≠ 0` — despite
the function's own docstring "multiple of 320 bytes". -/
theorem claim_C4_chunk_alignment_violated :
    VSS.wavToPcmLen 1000 1 22050 = 724 ∧
    ¬ (∀ c ∈ VSS.splitAudioChunks
          (List.replicate (VSS.wavToPcmLen 1000 1 22050) 0),
        c.length % VSS.CHUNK_SIZE = 0) := by
  have hlen : VSS.wavToPcmLen 1000 1 22050 = 724 := rfl
  refine ⟨hlen, ?_⟩
  intro h
  have hsplit : VSS.splitAudioChunks (List.replicate 724 (0 : Nat)) =
      [List.replicate 724 0] :=
    splitAudioChunks_short _
      (by
        intro hnil
        have hl := congrArg List.length hnil
        rw [List.length_replicate] at hl
        exact absurd hl (by decide))
      (by rw [List.length_replicate]; omega)
  have hmem : List.replicate 724 (0 : Nat) ∈
      VSS.splitAudioChunks (List.replicate (VSS.wavToPcmLen 1000 1 22050) 0) := by
    rw [hlen, hsplit]
    exact List.mem_singleton.mpr rfl
  have := h (List.replicate 724 0) hmem
  rw [List.length_replicate] at this
  exact absurd this (by decide)

/-- C9: with system audio not playing, the VAD probability sequence
0.8, 0.8, 0.1, 0.1, 0.1 (one chunk per frame tick, speech iff probability
≥ threshold 0.5) and minimum silence duration of 2 frame ticks yields
exactly one `speech_start` followed by exactly one `speech_end` and no
other (non-`continue`) events. -/
theorem claim_C9_vad_turn_sequence :
    VG.runChunks {} (mkRat 1 2) 2
        [(mkRat 8 10, 0), (mkRat 8 10, 1), (mkRat 1 10, 2),
         (mkRat 1 10, 3), (mkRat 1 10, 4)] =
      [VG.TurnEvent.speech_start, VG.TurnEvent.continued,
       VG.TurnEvent.continued, VG.TurnEvent.continued,
       VG.TurnEvent.speech_end] ∧
    (VG.runChunks {} (mkRat 1 2) 2
        [(mkRat 8 10, 0), (mkRat 8 10, 1), (mkRat 1 10, 2),
         (mkRat 1 10, 3), (mkRat 1 10, 4)]).filter
        (fun e => e ≠ VG.TurnEvent.continued) =
      [VG.TurnEvent.speech_start, VG.TurnEvent.speech_end] := by
  constructor
  · decide
  · decide

/-- C7: after a synthesis result is stored under the key derived from a
(text, language, voice) triple, a later `synthesize` with the identical
key returns byte-identical audio, makes no upstream call and leaves the
cache unchanged; and an equal-key dict overwrite is idempotent, so the
cache maps each key to at most one value. -/
theorem claim_C7_cache_hit_byte_identical (md5 : String → String)
    (tts : String → String → String → List Nat) (c : Nerve.Cache)
    (text language voice : String) :
    (Nerve.synthesize md5 tts
        (Nerve.synthesize md5 tts c text language voice).1
        text language voice).2.1 =
      (Nerve.synthesize md5 tts c text language voice).2.1 ∧
    (Nerve.synthesize md5 tts
        (Nerve.synthesize md5 tts c text language voice).1
        text language voice).2.2 = 0 ∧
    (Nerve.synthesize md5 tts
        (Nerve.synthesize md5 tts c text language voice).1
        text language voice).1 =
      (Nerve.synthesize md5 tts c text language voice).1 ∧
    (∀ key v, Nerve.cacheUpdate (Nerve.cacheUpdate c key v) key v =
        Nerve.cacheUpdate c key v) := by
  refine ⟨?_, ?_, ?_, ?_⟩
  all_goals
    first
    | (intro key v
       funext k
       unfold Nerve.cacheUpdate
       by_cases hk : k = key <;> simp [hk])
    | (unfold Nerve.synthesize
       cases h : c (Nerve.cache_key md5 text language voice) <;>
         simp [h, Nerve.cacheUpdate])

/-- C10: the cache key is the digest of the colon-joined
`"{text}:{language}:{voice}"`; the join is not injective — the distinct
triples (`"a:b"`, `"c"`, `"v"`) and (`"a"`, `"b:c"`, `"v"`) share the
pre-image `"a:b:c:v"`, hence the same key for any digest function — so a
cache hit can return audio synthesized for a different text: after
synthesizing (`"a:b"`, `"c"`, `"v"`) into an empty cache, synthesizing
(`"a"`, `"b:c"`, `"v"`) is a hit that returns the stored bytes and makes
no upstream call. -/
theorem claim_C10_cache_key_not_injective (md5 : String → String)
    (tts : String → String → String → List Nat) :
    (∀ t l v, Nerve.cache_key md5 t l v = md5 (t ++ ":" ++ l ++ ":" ++ v)) ∧
    Nerve.cache_key md5 "a:b" "c" "v" = Nerve.cache_key md5 "a" "b:c" "v" ∧
    (("a:b", "c", "v") : String × String × String) ≠ ("a", "b:c", "v") ∧
    ¬ Function.Injective
        (fun p : String × String × String =>
          Nerve.cache_key md5 p.1 p.2.1 p.2.2) ∧
    (Nerve.synthesize md5 tts
        (Nerve.synthesize md5 tts Nerve.emptyCache "a:b" "c" "v").1
        "a" "b:c" "v").2.1 =
      (Nerve.synthesize md5 tts Nerve.emptyCache "a:b" "c" "v").2.1 ∧
    (Nerve.synthesize md5 tts
        (Nerve.synthesize md5 tts Nerve.emptyCache "a:b" "c" "v").1
        "a" "b:c" "v").2.2 = 0 := by
  have hpre : ("a:b" ++ ":" ++ "c" ++ ":" ++ "v" : String) =
      ("a" ++ ":" ++ "b:c" ++ ":" ++ "v" : String) := by decide
  have hkey : Nerve.cache_key md5 "a:b" "c" "v" =
      Nerve.cache_key md5 "a" "b:c" "v" := by
    unfold Nerve.cache_key
    exact congrArg md5 hpre
  have hne : (("a:b", "c", "v") : String × String × String) ≠
      ("a", "b:c", "v") := by decide
  refine ⟨fun t l v => rfl, hkey, hne, ?_, ?_, ?_⟩
  · intro hinj
    exact hne (hinj hkey)
  · unfold Nerve.synthesize
    simp only [Nerve.emptyCache]
    rw [← hkey]
    simp [Nerve.cacheUpdate]
  · unfold Nerve.synthesize
    simp only [Nerve.emptyCache]
    rw [← hkey]
    simp [Nerve.cacheUpdate]

/-- C2 counterexample: deliver the terminal status callback for the same
call id twice; the second delivery (the registry entry is already gone)
still makes a result-reporting call, so the report fires twice, not once. -/
theorem claim_C2_counterexample :
    (Nerve.statusCallback
        (Nerve.statusCallback
            [("c1", { call_sid := "c1", status := Nerve.CallStatus.rejected,
                      current_state := "completed" })]
            "c1" (some "completed")).registry
        "c1" (some "completed")).reports = 1 ∧
    (Nerve.statusCallback
        [("c1", { call_sid := "c1", status := Nerve.CallStatus.rejected,
                  current_state := "completed" })]
        "c1" (some "completed")).reports +
      (Nerve.statusCallback
          (Nerve.statusCallback
              [("c1", { call_sid := "c1",
                        status := Nerve.CallStatus.rejected,
                        current_state := "completed" })]
              "c1" (some "completed")).registry
          "c1" (some "completed")).reports = 2 :=
  ⟨rfl, rfl⟩

/-- C2 amended: result reporting is not idempotent per call id.  Every
delivery of the status callback awaits `jupiter_reporter.report_result`
exactly once — including a repeated delivery of the same terminal event,
for which no session-level already-reported flag exists — while the
duplicate-DTMF webhook path is safe: a repeated terminal digit for a
completed-state session falls through without reporting. -/
theorem claim_C2_amended_report_per_delivery
    (registry : List (String × Nerve.CallState)) (call_sid : String)
    (status : Option String) (cs : Nerve.CallState) (dtmf : Option String)
    (h : cs.current_state = "completed") :
    (Nerve.statusCallback registry call_sid status).reports = 1 ∧
    Nerve.passthruCallbackStep cs dtmf = (cs, 0) :=
  ⟨rfl, passthruCallbackStep_completed cs dtmf h⟩

/-- Witness for the amended C2 at a concrete registry and session. -/
theorem claim_C2_amended_witness :
    (Nerve.statusCallback [] "c1" (some "completed")).reports = 1 ∧
    Nerve.passthruCallbackStep
        { call_sid := "c1", current_state := "completed" } (some "0") =
      ({ call_sid := "c1", current_state := "completed" }, 0) :=
  claim_C2_amended_report_per_delivery [] "c1" (some "completed")
    { call_sid := "c1", current_state := "completed" } (some "0") rfl

/-- C6 counterexample: in the passthru callback a prep-time digit outside
the menu, e.g. `"5"`, is parsed as a custom prep time (clamped to 5–90)
rather than the claimed 30-minute fallback: the collected prep time is 5. -/
theorem claim_C6_counterexample :
    (Nerve.passthruCallbackStep
        { call_sid := "c1", current_state := "prep_time" }
        (some "5")).1.prep_time_minutes = some 5 ∧
    (Nerve.passthruCallbackStep
        { call_sid := "c1", current_state := "prep_time" }
        (some "5")).1.prep_time_minutes ≠ some 30 := by
  constructor
  · decide
  · decide

/-- C6 amended: an out-of-menu prep-time digit never re-prompts — the
transition always completes with one report — but only the streaming
service and the programmable-gather handler fall back to 30 minutes.  The
passthru callback parses a numeric out-of-menu digit as a custom prep time
clamped to 5–90 minutes and falls back to 30 only when the digit is not
numeric. -/
theorem claim_C6_amended_prep_time_fallback (s : VSS.StreamState)
    (cs gcs : Nerve.CallState) (d : String)
    (hs : s.conversation_state = VSS.ConversationState.prep_time)
    (hcs : cs.current_state = "prep_time")
    (hg : gcs.current_state = "prep_time")
    (h1 : d ≠ "1") (h2 : d ≠ "2") (h3 : d ≠ "3") :
    ((VSS.handle_dtmf s d).1.prep_time_minutes = some 30 ∧
     (VSS.handle_dtmf s d).1.conversation_state =
       VSS.ConversationState.completed) ∧
    Nerve.gatherDtmf gcs d =
      ({ gcs with prep_time_minutes := some 30,
                  status := Nerve.CallStatus.prep_time_set,
                  current_state := "completed" }, 1) ∧
    ((Nerve.passthruDtmf cs d).1.current_state = "goodbye" ∧
     (Nerve.passthruDtmf cs d).2 = 1 ∧
     (Nerve.parseInt? (Nerve.stripHash d) = none →
        (Nerve.passthruDtmf cs d).1.prep_time_minutes = some 30) ∧
     (∀ v, Nerve.parseInt? (Nerve.stripHash d) = some v →
        (Nerve.passthruDtmf cs d).1.prep_time_minutes =
          some (max 5 (min 90 v)))) := by
  have hsg : s.conversation_state ≠ VSS.ConversationState.greeting := by
    rw [hs]; decide
  refine ⟨⟨?_, ?_⟩, ?_, ?_, ?_, ?_, ?_⟩
  · unfold VSS.handle_dtmf
    simp [hsg, hs, VSS.prepTimeLookup, h1, h2, h3]
  · unfold VSS.handle_dtmf
    simp [hsg, hs]
  · unfold Nerve.gatherDtmf
    rw [hg]
    simp [Nerve.prepTimeMapGet, h1, h2, h3]
  · unfold Nerve.passthruDtmf
    rw [hcs]
    simp
  · unfold Nerve.passthruDtmf
    rw [hcs]
    simp
  · intro hnone
    unfold Nerve.passthruDtmf
    rw [hcs]
    simp [Nerve.parsePrepDigit, h1, h2, h3, hnone]
  · intro v hv
    unfold Nerve.passthruDtmf
    rw [hcs]
    simp [Nerve.parsePrepDigit, h1, h2, h3, hv]

/-- Witness for the amended C6 at digit `"*"` (non-numeric, out of menu). -/
theorem claim_C6_amended_witness :
    (((VSS.handle_dtmf
          { conversation_state := VSS.ConversationState.prep_time }
          "*").1.prep_time_minutes = some 30 ∧
      (VSS.handle_dtmf
          { conversation_state := VSS.ConversationState.prep_time }
          "*").1.conversation_state = VSS.ConversationState.completed) ∧
     Nerve.gatherDtmf { call_sid := "g1", current_state := "prep_time" }
         "*" =
       ({ call_sid := "g1", status := Nerve.CallStatus.prep_time_set,
          current_state := "completed", prep_time_minutes := some 30 }, 1) ∧
     ((Nerve.passthruDtmf
          { call_sid := "c1", current_state := "prep_time" }
          "*").1.current_state = "goodbye" ∧
      (Nerve.passthruDtmf
          { call_sid := "c1", current_state := "prep_time" } "*").2 = 1 ∧
      (Nerve.parseInt? (Nerve.stripHash "*") = none →
         (Nerve.passthruDtmf
             { call_sid := "c1", current_state := "prep_time" }
             "*").1.prep_time_minutes = some 30) ∧
      (∀ v, Nerve.parseInt? (Nerve.stripHash "*") = some v →
         (Nerve.passthruDtmf
             { call_sid := "c1", current_state := "prep_time" }
             "*").1.prep_time_minutes = some (max 5 (min 90 v))))) :=
  claim_C6_amended_prep_time_fallback
    { conversation_state := VSS.ConversationState.prep_time }
    { call_sid := "c1", current_state := "prep_time" }
    { call_sid := "g1", current_state := "prep_time" } "*" rfl rfl rfl
    (by decide) (by decide) (by decide)

/-- C8 counterexample: `TTSCache.synthesize` has no per-key in-flight
deduplication.  Interleaving two first-time requests for the same key so
that both run their `if key in self.cache` check before either stores
makes each issue its own upstream synthesis call: two upstream calls, and
the second caller returns its own result, not the first caller's. -/
theorem claim_C8_counterexample :
    (Nerve.runSchedule [1] [2] [true, false, true, false, true, false]
        Nerve.initSynth).upstream_calls = 2 ∧
    Nerve.taskDone (Nerve.runSchedule [1] [2]
        [true, false, true, false, true, false] Nerve.initSynth).pcA = true ∧
    Nerve.taskDone (Nerve.runSchedule [1] [2]
        [true, false, true, false, true, false] Nerve.initSynth).pcB = true ∧
    (Nerve.runSchedule [1] [2] [true, false, true, false, true, false]
        Nerve.initSynth).upstream_calls ≠ 1 := by
  refine ⟨?_, ?_, ?_, ?_⟩ <;> decide

/-- Helper: one interleaving step preserves the execution invariant of
the two concurrent `synthesize` tasks. -/
theorem synthInv_sysStep (rA rB : List Nat) (s : Nerve.SynthSystem)
    (b : Bool) (h : Nerve.SynthInv s) :
    Nerve.SynthInv (Nerve.sysStep rA rB s b) := by
  obtain ⟨h1, h2, h3⟩ := h
  cases b
  · cases hpc : s.pcB <;> cases hc : s.cache <;>
      simp_all [Nerve.SynthInv, Nerve.sysStep, Nerve.taskStep,
        Nerve.callContrib] <;> omega
  · cases hpc : s.pcA <;> cases hc : s.cache <;>
      simp_all [Nerve.SynthInv, Nerve.sysStep, Nerve.taskStep,
        Nerve.callContrib] <;> omega

/-- Helper: the invariant holds after any cooperative schedule. -/
theorem synthInv_runSchedule (rA rB : List Nat) (sched : List Bool)
    (s : Nerve.SynthSystem) (h : Nerve.SynthInv s) :
    Nerve.SynthInv (Nerve.runSchedule rA rB sched s) := by
  induction sched generalizing s with
  | nil => exact h
  | cons b rest ih =>
      have hstep := synthInv_sysStep rA rB s b h
      simpa [Nerve.runSchedule, List.foldl] using
        ih (Nerve.sysStep rA rB s b) hstep

/-- Helper: a task never issues more than one upstream call. -/
theorem callContrib_le_one (pc : Nerve.SynthPC) : Nerve.callContrib pc ≤ 1 := by
  cases pc <;> simp [Nerve.callContrib]

/-- C8 amended: concurrent first-time identical-key requests do NOT
collapse to one upstream call.  Over every interleaving in which both
tasks complete, between one and two upstream synthesis calls are made:
one when a task's cache check runs after the other task has stored
(sequential-like schedules), two when both checks precede either store
(no caller ever awaits the other's in-flight result). -/
theorem claim_C8_amended_between_one_and_two (rA rB : List Nat)
    (sched : List Bool)
    (hA : Nerve.taskDone
        (Nerve.runSchedule rA rB sched Nerve.initSynth).pcA = true)
    (hB : Nerve.taskDone
        (Nerve.runSchedule rA rB sched Nerve.initSynth).pcB = true) :
    1 ≤ (Nerve.runSchedule rA rB sched Nerve.initSynth).upstream_calls ∧
    (Nerve.runSchedule rA rB sched Nerve.initSynth).upstream_calls ≤ 2 ∧
    (Nerve.runSchedule [1] [2] [true, true, true, false, false, false]
        Nerve.initSynth).upstream_calls = 1 ∧
    (Nerve.runSchedule [1] [2] [true, false, true, false, true, false]
        Nerve.initSynth).upstream_calls = 2 := by
  have hinit : Nerve.SynthInv Nerve.initSynth := by
    unfold Nerve.SynthInv Nerve.initSynth
    refine ⟨rfl, by simp, by simp⟩
  have hinv : Nerve.SynthInv (Nerve.runSchedule rA rB sched Nerve.initSynth) :=
    synthInv_runSchedule rA rB sched Nerve.initSynth hinit
  obtain ⟨h1, h2, h3⟩ := hinv
  set fin := Nerve.runSchedule rA rB sched Nerve.initSynth with hfin
  have hAcases : fin.pcA = Nerve.SynthPC.doneStored ∨
      fin.pcA = Nerve.SynthPC.doneHit := by
    revert hA
    unfold Nerve.taskDone
    cases fin.pcA <;> simp
  have hBcases : fin.pcB = Nerve.SynthPC.doneStored ∨
      fin.pcB = Nerve.SynthPC.doneHit := by
    revert hB
    unfold Nerve.taskDone
    cases fin.pcB <;> simp
  refine ⟨?_, ?_, by decide, by decide⟩
  · rcases hAcases with hA' | hA'
    · have : Nerve.callContrib fin.pcA = 1 := by rw [hA']; rfl
      omega
    · have hsome : fin.cache.isSome := h3 (Or.inl hA')
      have := h2.mp hsome
      rcases this with hS | hS
      · have : Nerve.callContrib fin.pcA = 1 := by rw [hS]; rfl
        omega
      · have : Nerve.callContrib fin.pcB = 1 := by rw [hS]; rfl
        omega
  · have ca := callContrib_le_one fin.pcA
    have cb := callContrib_le_one fin.pcB
    omega

/-- Witness for the amended C8 at the fully interleaved schedule. -/
theorem claim_C8_amended_witness :
    1 ≤ (Nerve.runSchedule [1] [2] [true, false, true, false, true, false]
        Nerve.initSynth).upstream_calls ∧
    (Nerve.runSchedule [1] [2] [true, false, true, false, true, false]
        Nerve.initSynth).upstream_calls ≤ 2 ∧
    (Nerve.runSchedule [1] [2] [true, true, true, false, false, false]
        Nerve.initSynth).upstream_calls = 1 ∧
    (Nerve.runSchedule [1] [2] [true, false, true, false, true, false]
        Nerve.initSynth).upstream_calls = 2 :=
  claim_C8_amended_between_one_and_two [1] [2]
    [true, false, true, false, true, false] (by decide) (by decide)
